import Mathlib

/-!
Verification of `packages/next-swc/crates/core/src/react_server_components.rs`
(the React Server Components SWC transform) against its natural-language
specification.

The Rust pass is embedded shallowly:
  * the parts of the swc ECMAScript AST the pass inspects or constructs are
    modelled as inductive types (`MExpr`, `Stmt`, `ModuleItem`, `Module`, ...);
    AST forms the pass never distinguishes are collapsed into `other...`
    constructors, which is faithful because the Rust code matches them with a
    single wildcard arm;
  * the ambient diagnostic handler (`HANDLER.with(...).struct_span_err(...).emit()`)
    is modelled by returning the list of emitted diagnostics in source order;
  * the comment side table (`self.comments.add_leading(pos, c)`) is modelled as a
    list of `(position, comment)` pairs to which entries are appended;
  * `Vec::retain` with its captured mutable flags is modelled by the structurally
    recursive scan `collectGo`, threading the `finished_directives` flag and
    returning `(is_client_entry, imports, kept items)` for the scanned suffix.
-/

namespace RSC

/-- Source span (swc `Span`): only its identity matters to the pass. -/
structure Span where
  lo : Nat
  hi : Nat
deriving DecidableEq, Repr

/-- swc `DUMMY_SP`, used for all synthesized nodes. -/
def DUMMY_SP : Span := ⟨0, 0⟩

/-- Comment kinds (swc `CommentKind`). -/
inductive CommentKind where
  | line
  | block
deriving DecidableEq, Repr

/-- A comment entry (swc `Comment`): kind and text. -/
structure Comment where
  kind : CommentKind
  text : String
deriving DecidableEq, Repr

/-- The expression forms the pass distinguishes.  `strLit` is
`Expr::Lit(Lit::Str ..)`; `ident`, `call`, `member` and `assign` are the forms
built by `to_module_ref`; every other expression is `otherExpr` (the pass only
ever matches them with a wildcard). -/
inductive MExpr where
  | strLit (value : String) (span : Span)
  | ident (sym : String)
  | call (callee : MExpr) (args : List MExpr)
  | member (obj : MExpr) (prop : String)
  | assign (left : MExpr) (right : MExpr)
  | otherExpr
deriving Repr

/-- `VarDeclKind`. -/
inductive VarDeclKind where
  | varKind
  | letKind
  | constKind
deriving DecidableEq, Repr

/-- `ObjectPatProp::Assign` as used by the rewriter: a shorthand destructuring
property `key` with optional default `value`. -/
structure AssignPatProp where
  key : String
  value : Option MExpr
deriving Repr

/-- The patterns the rewriter builds: an object-destructuring pattern. -/
inductive Pat where
  | object (props : List AssignPatProp)
  | otherPat
deriving Repr

/-- `VarDeclarator`: binding pattern plus optional initializer. -/
structure VarDeclarator where
  name : Pat
  init : Option MExpr
deriving Repr

/-- `VarDecl`: declaration kind plus declarator list. -/
structure VarDecl where
  kind : VarDeclKind
  decls : List VarDeclarator
deriving Repr

/-- The statement forms the pass distinguishes: expression statements
(`Stmt::Expr`), variable declarations (`Stmt::Decl(Decl::Var ..)`, built by the
rewriter), and everything else. -/
inductive Stmt where
  | expr (e : MExpr)
  | decl (d : VarDecl)
  | otherStmt
deriving Repr

/-- `ModuleExportName`: the imported name of a named specifier, either an
identifier or a string, each with its span. -/
inductive ModuleExportName where
  | ident (sym : String) (span : Span)
  | str (value : String) (span : Span)
deriving Repr

/-- `ImportSpecifier`.  For `named`, `local`/`localSpan` model the local
binding identifier and `imported` the optional original name; for `default`
and `namespace` only the specifier span is consulted. -/
inductive ImportSpecifier where
  | named (lcl : String) (localSpan : Span) (imported : Option ModuleExportName)
  | default (span : Span)
  | «namespace» (span : Span)
deriving Repr

/-- `ImportDecl`: source string, the span of the import statement, and
specifiers. -/
structure ImportDecl where
  src : String
  span : Span
  specifiers : List ImportSpecifier
deriving Repr

/-- Top-level module items: statements, import declarations, and other module
declarations (export declarations etc., matched by the wildcard arm). -/
inductive ModuleItem where
  | stmt (s : Stmt)
  | importDecl (i : ImportDecl)
  | otherModuleDecl
deriving Repr

/-- `Module`: span plus body. -/
structure Module where
  span : Span
  body : List ModuleItem
deriving Repr

/-- `ModuleImports` (lines 47-50): import source with its span, and the
collected `(name, span)` specifier records. -/
structure ModuleImports where
  source : String × Span
  specifiers : List (String × Span)
deriving Repr

/-- A diagnostic emitted through `HANDLER.struct_span_err(span, msg).emit()`. -/
structure Diagnostic where
  span : Span
  message : String
deriving DecidableEq, Repr

/-- The pass state `ReactServerComponents` (lines 37-45); the comment sink is
passed explicitly to the functions that use it. -/
structure ReactServerComponents where
  is_server : Bool
  filepath : String
  invalid_server_imports : List String
  invalid_client_imports : List String
  invalid_server_react_apis : List String
  invalid_server_react_dom_apis : List String
deriving Repr

/-- `Options` (lines 31-35). -/
structure Options where
  is_server : Bool
deriving Repr

/-- `Config` (lines 15-20). -/
inductive Config where
  | all (b : Bool)
  | withOptions (o : Options)
deriving Repr

/-- `Config::truthy` (lines 22-29). -/
def Config.truthy : Config → Bool
  | Config.all b => b
  | Config.withOptions _ => true

/-- The specifier mapping of lines 121-131: a named specifier records the
original (imported) name, identifier or string form, when aliased, otherwise
its local name; a default specifier records `""`; a namespace one `"*"`.
Each record carries the span of the corresponding node. -/
def specifierRecord : ImportSpecifier → String × Span
  | ImportSpecifier.named _ _ (some (ModuleExportName.ident sym sp)) => (sym, sp)
  | ImportSpecifier.named _ _ (some (ModuleExportName.str v sp)) => (v, sp)
  | ImportSpecifier.named lcl lsp none => (lcl, lsp)
  | ImportSpecifier.default sp => ("", sp)
  | ImportSpecifier.«namespace» sp => ("*", sp)

/-- The `ModuleImports` record pushed at lines 134-137 for one import
declaration. -/
def importRecord (i : ImportDecl) : ModuleImports :=
  { source := (i.src, i.span), specifiers := i.specifiers.map specifierRecord }

/-- `stmt.as_expr()` composed with the string-literal match of line 95: `some
(value, span)` when the statement is an expression statement whose expression
is a string literal, `none` otherwise.  Both `None`-producing paths of the
Rust code (non-expression statement, line 109-112, and non-string-literal
expression, line 103-106) set `finished_directives` and keep the item. -/
def asStrLitExprStmt : Stmt → Option (String × Span)
  | Stmt.expr (MExpr.strLit v sp) => some (v, sp)
  | _ => none

/-- The body of the `retain` closure of lines 83-146, as a structurally
recursive scan.  The `Bool` argument is the captured `finished_directives`
flag; the result is `(is_client_entry, imports, kept items)` for the scanned
suffix.  A `"client"` string-literal expression statement seen while the
directive phase is active sets `is_client_entry` and is dropped (lines
96-101) without finishing the phase; any other statement while the phase is
active finishes it (lines 87-90, 103-112); imports are recorded and finish
the phase (lines 116-140); any other module declaration finishes the phase
(lines 141-143); everything except the dropped directive is retained. -/
def collectGo : Bool → List ModuleItem → Bool × List ModuleImports × List ModuleItem
  | _, [] => (false, [], [])
  | finished, ModuleItem.stmt s :: rest =>
    match finished, asStrLitExprStmt s with
    | false, some (v, _) =>
      if v = "client" then
        let r := collectGo false rest
        (true, r.2.1, r.2.2)
      else
        let r := collectGo false rest
        (r.1, r.2.1, ModuleItem.stmt s :: r.2.2)
    | false, none =>
      let r := collectGo true rest
      (r.1, r.2.1, ModuleItem.stmt s :: r.2.2)
    | true, _ =>
      let r := collectGo true rest
      (r.1, r.2.1, ModuleItem.stmt s :: r.2.2)
  | _, ModuleItem.importDecl i :: rest =>
    let r := collectGo true rest
    (r.1, importRecord i :: r.2.1, ModuleItem.importDecl i :: r.2.2)
  | _, ModuleItem.otherModuleDecl :: rest =>
    let r := collectGo true rest
    (r.1, r.2.1, ModuleItem.otherModuleDecl :: r.2.2)

/-- `collect_top_level_directives_and_imports` (lines 75-149): scans the body
once with `finished_directives` initially false and `is_client_entry`
initially false, returning the flag, the collected imports, and the module
with the retained body. -/
def collect_top_level_directives_and_imports (m : Module) :
    Bool × List ModuleImports × Module :=
  let r := collectGo false m.body
  (r.1, r.2.1, { m with body := r.2.2 })

/-- The two synthetic items built by `to_module_ref` (lines 160-208):
`const { createProxy } = require("private-next-rsc-mod-ref-proxy");` and
`module.exports = createProxy(filepath);`, all spans `DUMMY_SP`. -/
def moduleRefItems (filepath : String) : List ModuleItem :=
  [ ModuleItem.stmt (Stmt.decl
      { kind := VarDeclKind.constKind,
        decls := [ { name := Pat.object [ { key := "createProxy", value := none } ],
                     init := some (MExpr.call (MExpr.ident "require")
                       [MExpr.strLit "private-next-rsc-mod-ref-proxy" DUMMY_SP]) } ] }),
    ModuleItem.stmt (Stmt.expr
      (MExpr.assign
        (MExpr.member (MExpr.ident "module") "exports")
        (MExpr.call (MExpr.ident "createProxy")
          [MExpr.strLit filepath DUMMY_SP]))) ]

/-- `to_module_ref` (lines 153-219): clears the body, prepends the two stub
items, and appends one leading block comment with the sentinel text at the
low position of the module. -/
def to_module_ref (self : ReactServerComponents) (m : Module)
    (comments : List (Nat × Comment)) : Module × List (Nat × Comment) :=
  ({ m with body := moduleRefItems self.filepath },
   comments ++ [(m.span.lo,
     { kind := CommentKind.block,
       text := " __next_internal_client_entry_do_not_use__ " })])

/-- The diagnostics emitted for one import by the loop body of
`assert_server_graph` (lines 222-276): one source-level diagnostic when the source is in
`invalid_server_imports`, then one per forbidden specifier from `"react"`,
then one per forbidden specifier from `"react-dom"`. -/
def serverImportDiagnostics (self : ReactServerComponents)
    (imp : ModuleImports) : List Diagnostic :=
  (if imp.source.1 ∈ self.invalid_server_imports then
    [ { span := imp.source.2,
        message := "Disallowed import of `" ++ imp.source.1 ++
          "` in the Server Components compilation." } ]
   else [])
  ++ (if imp.source.1 = "react" then
        imp.specifiers.filterMap (fun spec =>
          if spec.1 ∈ self.invalid_server_react_apis then
            some { span := spec.2,
                   message := "Disallowed React API `" ++ spec.1 ++
                     "` in the Server Components compilation." }
          else none)
      else [])
  ++ (if imp.source.1 = "react-dom" then
        imp.specifiers.filterMap (fun spec =>
          if spec.1 ∈ self.invalid_server_react_dom_apis then
            some { span := spec.2,
                   message := "Disallowed ReactDOM API `" ++ spec.1 ++
                     "` in the Server Components compilation." }
          else none)
      else [])

/-- `assert_server_graph` (lines 221-277): emits the per-import diagnostics
in the order the imports were collected. -/
def assert_server_graph (self : ReactServerComponents)
    (imports : List ModuleImports) : List Diagnostic :=
  (imports.map (serverImportDiagnostics self)).flatten

/-- `assert_client_graph` (lines 279-297): one diagnostic per import whose
source is in `invalid_client_imports`. -/
def assert_client_graph (self : ReactServerComponents)
    (imports : List ModuleImports) : List Diagnostic :=
  (imports.map (fun imp =>
    if imp.source.1 ∈ self.invalid_client_imports then
      [ { span := imp.source.2,
          message := "Disallowed import of `" ++ imp.source.1 ++
            "` in the Client Components compilation." } ]
    else [])).flatten

/-- `visit_mut_module` (lines 55-69), returning the mutated module, the
diagnostics emitted while processing it, and the updated comment table.  The
trailing `module.visit_mut_children_with(self)` is the identity on all three:
`visit_mut_module` is the only overridden visitor method and modules do not
nest, so the recursive traversal performs no observable action; the rewrite
branch returns before it. -/
def visit_mut_module (self : ReactServerComponents) (m : Module)
    (comments : List (Nat × Comment)) :
    Module × List Diagnostic × List (Nat × Comment) :=
  let r := collect_top_level_directives_and_imports m
  if self.is_server then
    if !r.1 then
      (r.2.2, assert_server_graph self r.2.1, comments)
    else
      let rw := to_module_ref self r.2.2 comments
      (rw.1, [], rw.2)
  else
    (r.2.2, assert_client_graph self r.2.1, comments)

/-- `server_components` (lines 300-341): resolves the mode (`WithOptions`
consults `is_server`; the bare-boolean form always yields server mode) and
builds the pass state with the fixed denylists. -/
def server_components (filename : String) (config : Config) :
    ReactServerComponents :=
  let is_server : Bool :=
    match config with
    | Config.withOptions x => x.is_server
    | _ => true
  { is_server := is_server,
    filepath := filename,
    invalid_server_imports :=
      ["client-only", "react-dom/client", "react-dom/server"],
    invalid_client_imports := ["server-only"],
    invalid_server_react_dom_apis :=
      ["findDOMNode", "flushSync", "unstable_batchedUpdates"],
    invalid_server_react_apis :=
      ["Component", "createContext", "createFactory", "PureComponent",
       "useDeferredValue", "useEffect", "useImperativeHandle",
       "useInsertionEffect", "useLayoutEffect", "useReducer", "useRef",
       "useState", "useSyncExternalStore", "useTransition"] }

/-- A server-mode pass state, as built by `server_components` for the
bare-boolean configuration. -/
def rscServer : ReactServerComponents :=
  server_components "test.js" (Config.all true)

/-- A client-mode pass state, as built by `server_components` for
`Config::WithOptions(Options { is_server: false })`. -/
def rscClient : ReactServerComponents :=
  server_components "test.js" (Config.withOptions { is_server := false })

/-- Specification-side characterization used to state the amended directive
claims: whether a `"client"` string-literal expression statement occurs in
the leading run of bare string-literal expression statements of the module. -/
def directiveRunHasClient : List ModuleItem → Bool
  | ModuleItem.stmt s :: rest =>
    match asStrLitExprStmt s with
    | some (v, _) => v = "client" || directiveRunHasClient rest
    | none => false
  | _ => false

/-- Specification-side characterization used to state the amended directive
claims: the body with every `"client"` string literal in the leading run of
bare string-literal expression statements removed, everything else kept. -/
def directiveRunRemoveClient : List ModuleItem → List ModuleItem
  | ModuleItem.stmt s :: rest =>
    match asStrLitExprStmt s with
    | some (v, _) =>
      if v = "client" then directiveRunRemoveClient rest
      else ModuleItem.stmt s :: directiveRunRemoveClient rest
    | none => ModuleItem.stmt s :: rest
  | l => l

theorem collectGo_finished_spec (l : List ModuleItem) :
    (collectGo true l).1 = false ∧ (collectGo true l).2.2 = l := by
  induction l with
  | nil => exact ⟨rfl, rfl⟩
  | cons x rest ih =>
    cases x with
    | stmt s => simpa [collectGo] using ih
    | importDecl i => simpa [collectGo] using ih
    | otherModuleDecl => simpa [collectGo] using ih

theorem collectGo_active_spec (l : List ModuleItem) :
    (collectGo false l).1 = directiveRunHasClient l ∧
    (collectGo false l).2.2 = directiveRunRemoveClient l := by
  induction l with
  | nil => exact ⟨rfl, rfl⟩
  | cons x rest ih =>
    cases x with
    | stmt s =>
      cases hs : asStrLitExprStmt s with
      | none =>
        have hk := collectGo_finished_spec rest
        cases s with
        | expr e =>
          cases e with
          | strLit v sp => simp [asStrLitExprStmt] at hs
          | ident sym =>
            simp [collectGo, directiveRunHasClient, directiveRunRemoveClient,
              asStrLitExprStmt, hk.1, hk.2]
          | call c a =>
            simp [collectGo, directiveRunHasClient, directiveRunRemoveClient,
              asStrLitExprStmt, hk.1, hk.2]
          | member o p =>
            simp [collectGo, directiveRunHasClient, directiveRunRemoveClient,
              asStrLitExprStmt, hk.1, hk.2]
          | assign a b =>
            simp [collectGo, directiveRunHasClient, directiveRunRemoveClient,
              asStrLitExprStmt, hk.1, hk.2]
          | otherExpr =>
            simp [collectGo, directiveRunHasClient, directiveRunRemoveClient,
              asStrLitExprStmt, hk.1, hk.2]
        | decl d =>
          simp [collectGo, directiveRunHasClient, directiveRunRemoveClient,
            asStrLitExprStmt, hk.1, hk.2]
        | otherStmt =>
          simp [collectGo, directiveRunHasClient, directiveRunRemoveClient,
            asStrLitExprStmt, hk.1, hk.2]
      | some p =>
        obtain ⟨v, sp⟩ := p
        by_cases hv : v = "client"
        · subst hv
          simp [collectGo, directiveRunHasClient, directiveRunRemoveClient,
            hs, ih.1, ih.2]
        · simp [collectGo, directiveRunHasClient, directiveRunRemoveClient,
            hs, hv, ih.1, ih.2]
    | importDecl i =>
      have hk := collectGo_finished_spec rest
      simp [collectGo, directiveRunHasClient, directiveRunRemoveClient,
        hk.1, hk.2]
    | otherModuleDecl =>
      have hk := collectGo_finished_spec rest
      simp [collectGo, directiveRunHasClient, directiveRunRemoveClient,
        hk.1, hk.2]

/-- C1 counterexample: the module `"foo"; "client";` has a non-marker string
literal as its first statement, yet `collect_top_level_directives_and_imports`
returns `is_client_boundary = true` and removes the later `"client"` literal,
refuting the claim that any module whose first statement is another string
literal yields `false`. -/
theorem C1_counterexample :
    (Module.mk ⟨0, 0⟩
      [ModuleItem.stmt (Stmt.expr (MExpr.strLit "foo" ⟨0, 5⟩)),
       ModuleItem.stmt (Stmt.expr (MExpr.strLit "client" ⟨6, 14⟩))]).body.head? =
      some (ModuleItem.stmt (Stmt.expr (MExpr.strLit "foo" ⟨0, 5⟩)))
    ∧ ¬ ("foo" = "client")
    ∧ (collect_top_level_directives_and_imports
        ⟨⟨0, 0⟩, [ModuleItem.stmt (Stmt.expr (MExpr.strLit "foo" ⟨0, 5⟩)),
                  ModuleItem.stmt (Stmt.expr (MExpr.strLit "client" ⟨6, 14⟩))]⟩).1 = true
    ∧ (collect_top_level_directives_and_imports
        ⟨⟨0, 0⟩, [ModuleItem.stmt (Stmt.expr (MExpr.strLit "foo" ⟨0, 5⟩)),
                  ModuleItem.stmt (Stmt.expr (MExpr.strLit "client" ⟨6, 14⟩))]⟩).2.2.body =
      [ModuleItem.stmt (Stmt.expr (MExpr.strLit "foo" ⟨0, 5⟩))] :=
  ⟨rfl, by decide, rfl, rfl⟩

/-- C1 (amended): `collect_top_level_directives_and_imports` returns
`is_client_boundary = true` exactly when a bare `"client"` string-literal
expression statement occurs in the leading run of bare string-literal
expression statements (in particular when it is the first statement, which it
then removes), and the output body is the input body with every `"client"`
literal of that leading run removed; when no `"client"` literal occurs in the
leading run — including when the module starts with a different string literal
or has no such statement — it returns `false` and keeps all items unchanged. -/
theorem C1_amended_directive_run (m : Module) :
    (collect_top_level_directives_and_imports m).1 = directiveRunHasClient m.body
    ∧ (collect_top_level_directives_and_imports m).2.2.body =
        directiveRunRemoveClient m.body :=
  ⟨(collectGo_active_spec m.body).1, (collectGo_active_spec m.body).2⟩

/-- C2: `to_module_ref` replaces the body with exactly the two stub items —
`const { createProxy } = require("private-next-rsc-mod-ref-proxy");` followed
by `module.exports = createProxy(filepath);` — independently of the original
body, so two modules with the same filepath yield structurally identical
output, and it appends exactly one leading block comment with the sentinel
text at the start position of the module. -/
theorem C2_module_ref_shape (self : ReactServerComponents) (m mm : Module)
    (cs : List (Nat × Comment)) :
    (to_module_ref self m cs).1.body =
      [ ModuleItem.stmt (Stmt.decl
          { kind := VarDeclKind.constKind,
            decls := [ { name := Pat.object [ { key := "createProxy", value := none } ],
                         init := some (MExpr.call (MExpr.ident "require")
                           [MExpr.strLit "private-next-rsc-mod-ref-proxy" DUMMY_SP]) } ] }),
        ModuleItem.stmt (Stmt.expr
          (MExpr.assign (MExpr.member (MExpr.ident "module") "exports")
            (MExpr.call (MExpr.ident "createProxy")
              [MExpr.strLit self.filepath DUMMY_SP]))) ]
    ∧ (to_module_ref self m cs).1.body = (to_module_ref self mm cs).1.body
    ∧ (to_module_ref self m cs).2 =
        cs ++ [(m.span.lo,
          { kind := CommentKind.block,
            text := " __next_internal_client_entry_do_not_use__ " })] :=
  ⟨rfl, rfl, rfl⟩

/-- C3: under server mode, `import { useState, useEffect } from "react"`
produces exactly two diagnostics, one per forbidden specifier, each attributed
to the span of that specifier, whatever the span of the whole statement is. -/
theorem C3_react_specifier_fanout (ispan s1 s2 : Span) :
    assert_server_graph rscServer
      [ { source := ("react", ispan),
          specifiers := [("useState", s1), ("useEffect", s2)] } ] =
      [ { span := s1,
          message := "Disallowed React API `useState` in the Server Components compilation." },
        { span := s2,
          message := "Disallowed React API `useEffect` in the Server Components compilation." } ] :=
  rfl

/-- C4: an import of `"server-only"` processed in client mode yields exactly
one diagnostic at the span of the import, and an import of `"client-only"`
processed in server mode yields exactly one diagnostic at the span of that
one; each of the two processed under the opposite mode yields zero
diagnostics. -/
theorem C4_boundary_mode_isolation (isp : Span) (cs : List (Nat × Comment)) :
    (visit_mut_module rscClient
        ⟨⟨0, 0⟩, [ModuleItem.importDecl ⟨"server-only", isp, []⟩]⟩ cs).2.1 =
      [ { span := isp,
          message := "Disallowed import of `server-only` in the Client Components compilation." } ]
    ∧ (visit_mut_module rscServer
        ⟨⟨0, 0⟩, [ModuleItem.importDecl ⟨"client-only", isp, []⟩]⟩ cs).2.1 =
      [ { span := isp,
          message := "Disallowed import of `client-only` in the Server Components compilation." } ]
    ∧ (visit_mut_module rscServer
        ⟨⟨0, 0⟩, [ModuleItem.importDecl ⟨"server-only", isp, []⟩]⟩ cs).2.1 = []
    ∧ (visit_mut_module rscClient
        ⟨⟨0, 0⟩, [ModuleItem.importDecl ⟨"client-only", isp, []⟩]⟩ cs).2.1 = [] :=
  ⟨rfl, rfl, rfl, rfl⟩

/-- C5: in server mode, a module detected as a client boundary is rewritten to
the module-reference stub and nothing further runs for it: the pass emits zero
diagnostics for that module, whatever imports its original body contained. -/
theorem C5_rewrite_terminal (self : ReactServerComponents) (m : Module)
    (cs : List (Nat × Comment)) (hs : self.is_server = true)
    (hb : (collect_top_level_directives_and_imports m).1 = true) :
    (visit_mut_module self m cs).2.1 = []
    ∧ (visit_mut_module self m cs).1.body = moduleRefItems self.filepath := by
  constructor
  · simp [visit_mut_module, hs, hb, to_module_ref]
  · simp [visit_mut_module, hs, hb, to_module_ref]

theorem C5_rewrite_terminal_witness :
    (server_components "app/page.js" (Config.all true)).is_server = true
    ∧ (collect_top_level_directives_and_imports
        ⟨⟨0, 0⟩, [ModuleItem.stmt (Stmt.expr (MExpr.strLit "client" ⟨0, 8⟩)),
                  ModuleItem.importDecl ⟨"client-only", ⟨9, 40⟩, []⟩]⟩).1 = true
    ∧ (visit_mut_module (server_components "app/page.js" (Config.all true))
        ⟨⟨0, 0⟩, [ModuleItem.stmt (Stmt.expr (MExpr.strLit "client" ⟨0, 8⟩)),
                  ModuleItem.importDecl ⟨"client-only", ⟨9, 40⟩, []⟩]⟩ []).2.1 = [] :=
  ⟨rfl, rfl,
    (C5_rewrite_terminal (server_components "app/page.js" (Config.all true))
      ⟨⟨0, 0⟩, [ModuleItem.stmt (Stmt.expr (MExpr.strLit "client" ⟨0, 8⟩)),
                ModuleItem.importDecl ⟨"client-only", ⟨9, 40⟩, []⟩]⟩ [] rfl rfl).1⟩

/-- C6 counterexample: in the module `"use strict"; "client";` the leading
statement is a non-marker string literal, yet the scan still treats the
following `"client"` literal as a directive: the module is classified as a
client boundary and that literal is removed, refuting the claim that the
directive phase ends at the first non-marker string literal. -/
theorem C6_counterexample :
    (collect_top_level_directives_and_imports
      ⟨⟨0, 0⟩, [ModuleItem.stmt (Stmt.expr (MExpr.strLit "use strict" ⟨0, 12⟩)),
                ModuleItem.stmt (Stmt.expr (MExpr.strLit "client" ⟨13, 21⟩))]⟩).1 = true
    ∧ (collect_top_level_directives_and_imports
      ⟨⟨0, 0⟩, [ModuleItem.stmt (Stmt.expr (MExpr.strLit "use strict" ⟨0, 12⟩)),
                ModuleItem.stmt (Stmt.expr (MExpr.strLit "client" ⟨13, 21⟩))]⟩).2.2.body =
      [ModuleItem.stmt (Stmt.expr (MExpr.strLit "use strict" ⟨0, 12⟩))] :=
  ⟨rfl, rfl⟩

/-- C6 (amended): a leading non-marker string-literal statement does not end
the directive phase: the statement is kept, and a `"client"` string-literal
statement directly after it is still treated as a directive — the module is
classified as a client boundary and that later literal is removed (the phase
ends only at the first item that is not a bare string-literal expression
statement). -/
theorem C6_amended_nonmarker_continues (msp sp sp2 : Span) (v : String)
    (rest : List ModuleItem) (hv : ¬ v = "client") :
    (collect_top_level_directives_and_imports
      ⟨msp, ModuleItem.stmt (Stmt.expr (MExpr.strLit v sp)) ::
            ModuleItem.stmt (Stmt.expr (MExpr.strLit "client" sp2)) :: rest⟩).1 = true
    ∧ (collect_top_level_directives_and_imports
      ⟨msp, ModuleItem.stmt (Stmt.expr (MExpr.strLit v sp)) ::
            ModuleItem.stmt (Stmt.expr (MExpr.strLit "client" sp2)) :: rest⟩).2.2.body =
      ModuleItem.stmt (Stmt.expr (MExpr.strLit v sp)) ::
        directiveRunRemoveClient rest := by
  have h := collectGo_active_spec rest
  constructor
  · simp [collect_top_level_directives_and_imports, collectGo, asStrLitExprStmt, hv]
  · simp [collect_top_level_directives_and_imports, collectGo, asStrLitExprStmt,
      hv, h.2]

theorem C6_amended_nonmarker_continues_witness :
    ¬ ("use strict" = "client")
    ∧ (collect_top_level_directives_and_imports
        ⟨⟨2, 3⟩, ModuleItem.stmt (Stmt.expr (MExpr.strLit "use strict" ⟨4, 16⟩)) ::
                 ModuleItem.stmt (Stmt.expr (MExpr.strLit "client" ⟨17, 25⟩)) :: []⟩).1 = true :=
  ⟨by decide,
    (C6_amended_nonmarker_continues ⟨2, 3⟩ ⟨4, 16⟩ ⟨17, 25⟩ "use strict" []
      (by decide)).1⟩

/-- C7: an import declaration ends the directive window but is still recorded:
for the module `import ...; "client";` the scan returns
`is_client_boundary = false`, records exactly the one import, and keeps the
trailing `"client"` literal unchanged in the output body. -/
theorem C7_import_ends_directives (msp sp : Span) (i : ImportDecl) :
    collect_top_level_directives_and_imports
      ⟨msp, [ModuleItem.importDecl i,
             ModuleItem.stmt (Stmt.expr (MExpr.strLit "client" sp))]⟩ =
      (false, [importRecord i],
       ⟨msp, [ModuleItem.importDecl i,
              ModuleItem.stmt (Stmt.expr (MExpr.strLit "client" sp))]⟩) :=
  rfl

/-- C8: in client mode the react/react-dom per-API denylists are never
consulted: a module importing any specifiers whatsoever from `"react"`
produces zero diagnostics (in particular `import { useState } from "react"`). -/
theorem C8_client_mode_no_api_denylist (isp : Span)
    (specs : List ImportSpecifier) (cs : List (Nat × Comment)) :
    (visit_mut_module rscClient
        ⟨⟨0, 0⟩, [ModuleItem.importDecl ⟨"react", isp, specs⟩]⟩ cs).2.1 = [] := by
  simp [visit_mut_module, rscClient, server_components, importRecord,
    collect_top_level_directives_and_imports, collectGo, assert_client_graph]

/-- C9: an aliased named specifier is recorded under its imported (original)
name with the span of the imported name, a default specifier under `""`, a
namespace specifier under `"*"`, each with its own span; consequently
`import { useState as u } from "react"` still triggers the server-mode
forbidden-API diagnostic, attributed to the span of the imported name. -/
theorem C9_specifier_records (a : String) (asp nsp dsp nssp isp : Span) :
    specifierRecord (ImportSpecifier.named a asp
        (some (ModuleExportName.ident "useState" nsp))) = ("useState", nsp)
    ∧ specifierRecord (ImportSpecifier.default dsp) = ("", dsp)
    ∧ specifierRecord (ImportSpecifier.«namespace» nssp) = ("*", nssp)
    ∧ assert_server_graph rscServer
        [importRecord ⟨"react", isp,
          [ImportSpecifier.named "u" asp
            (some (ModuleExportName.ident "useState" nsp))]⟩] =
      [ { span := nsp,
          message := "Disallowed React API `useState` in the Server Components compilation." } ] :=
  ⟨rfl, rfl, rfl, rfl⟩

/-- C10: the bare-boolean configuration always resolves to server mode, for
both boolean values — only `Config::WithOptions` with `is_server = false`
selects client mode. -/
theorem C10_bare_bool_is_server (b : Bool) (fname : String) :
    (server_components fname (Config.all b)).is_server = true
    ∧ (server_components fname
        (Config.withOptions { is_server := false })).is_server = false :=
  ⟨rfl, rfl⟩

end RSC
